import Mathlib

set_option maxRecDepth 8192

/- Verification of mika1337/unifi-tools.

   Shallow embedding of the parts of the repository the claims are about:
   - src/unifi/__init__.py : the decoder (`_extract_device_infos`,
     `_extract_port_infos`, `_device_state_values`), `login`, and the
     request helpers that carry a MAC address;
   - src/monitor/unifi-monitor.py : the two comparators
     (`monitor_vpn_connections`, `monitor_ports`), the hard-coded
     `ignore_list` and the main monitor loop with its error counter.

   Python exceptions are modelled with an explicit error type: a function
   that can raise returns a pair (observable actions, `Option PyError`) or
   an `Except PyError` value.  Mutable function attributes (the stored
   previous snapshots) are modelled by explicit state passing: the caller
   keeps the stored value, and the assignment that is the last statement of
   each comparator is modelled by `..._stored_after`, which keeps the old
   value exactly when the body raised before reaching that assignment. -/

/-- Python exception classes the embedded code can raise. -/
inductive PyError where
  | keyError
  | valueError
  | runtimeError (msg : String)
  | connectionError
  | notifierError
  deriving DecidableEq

/-- Unifi.DeviceState (src/unifi/__init__.py lines 18-24). -/
inductive DeviceState where
  | disconnected
  | connected
  | upgrading
  | provisioning
  | heartbeatMissed
  | other
  deriving DecidableEq

/-- Unifi.DeviceType (src/unifi/__init__.py lines 32-36). -/
inductive DeviceType where
  | switch
  | ap
  | gw
  | other
  deriving DecidableEq

/-- Unifi.LinkSpeed (src/unifi/__init__.py lines 38-42). -/
inductive LinkSpeed where
  | down
  | up10Mb
  | up100Mb
  | up1Gb
  deriving DecidableEq

/-- Unifi._device_state_values (lines 26-30): a dict keyed by the raw
integer state code; `none` means the key is absent (a Python subscript on
the dict then raises KeyError, not ValueError). -/
def device_state_values (n : Int) : Option DeviceState :=
  if n = 0 then some .disconnected
  else if n = 1 then some .connected
  else if n = 4 then some .upgrading
  else if n = 5 then some .provisioning
  else if n = 6 then some .heartbeatMissed
  else none

/-- A raw controller JSON port record, restricted to the keys
`_extract_port_infos` reads.  `up` is optional (the code tests
`'up' not in port_data`); `speed` is read only on the up branch. -/
structure RawPort where
  name : String
  enable : Bool
  port_idx : Nat
  up : Option Bool
  speed : Int
  deriving DecidableEq

/-- A raw controller JSON device record, restricted to the keys
`_extract_device_infos` reads.  Keys the code reads unconditionally are
plain fields; keys read inside a try/except KeyError are `Option`s. -/
structure RawDevice where
  _id : String
  name : String
  ip : String
  mac : String
  displayable_version : Option String
  state : Int
  type : String
  disabled : Option Bool
  port_table : List RawPort
  deriving DecidableEq

/-- The port dict `_extract_port_infos` builds: `speed = none` models the
dict with no `'speed'` key at all (the decode-error branch). -/
structure PortInfo where
  name : String
  enable : Bool
  index : Nat
  speed : Option LinkSpeed
  deriving DecidableEq

/-- The device dict `_extract_device_infos` builds (`raw_data` omitted). -/
structure DeviceInfo where
  id : String
  name : String
  ip : String
  mac : String
  version : String
  state : DeviceState
  type : DeviceType
  disabled : Bool
  ports : List PortInfo
  deriving DecidableEq

/-- The dict subscript `_device_state_values[code]`: raises KeyError when
the code is not a key of the dict. -/
def dict_state_get (code : Int) : Except PyError DeviceState :=
  match device_state_values code with
  | some s => .ok s
  | none => .error .keyError

/-- A Python `try: ... except ValueError: ...` block: only a ValueError is
caught and replaced by the fallback; every other exception propagates. -/
def tryExceptValueError {A : Type} (x : Except PyError A) (fallback : A) : Except PyError A :=
  match x with
  | .error .valueError => .ok fallback
  | r => r

/-- Unifi._extract_port_infos (lines 213-237).  Total: when the port is not
up the speed is DOWN; when it is up and the raw speed is none of 10/100/1000
the function logs an error and leaves the `'speed'` key unset (`none`). -/
def extract_port_infos (pd : RawPort) : PortInfo :=
  let speed : Option LinkSpeed :=
    if pd.up = none ∨ pd.up = some false then some .down
    else if pd.speed = 10 then some .up10Mb
    else if pd.speed = 100 then some .up100Mb
    else if pd.speed = 1000 then some .up1Gb
    else none
  { name := pd.name, enable := pd.enable, index := pd.port_idx, speed := speed }

/-- Unifi._extract_device_infos (lines 165-211).  The state lookup is a
dict subscript wrapped in `try ... except ValueError`; an unknown state code
raises KeyError, which that handler does not catch, so the whole decode
raises. -/
def extract_device_infos (dd : RawDevice) : Except PyError DeviceInfo := do
  let version := dd.displayable_version.getD "<unavailable>"
  let st ← tryExceptValueError (dict_state_get dd.state) DeviceState.other
  let ty :=
    if dd.type = "uap" then DeviceType.ap
    else if dd.type = "ugw" then DeviceType.gw
    else if dd.type = "usw" then DeviceType.switch
    else DeviceType.other
  let dis := dd.disabled.getD false
  .ok { id := dd._id, name := dd.name, ip := dd.ip, mac := dd.mac
      , version := version, state := st, type := ty, disabled := dis
      , ports := dd.port_table.map extract_port_infos }

/-- A well-formed raw device record whose state code is the argument. -/
def rawDeviceWithState (n : Int) : RawDevice :=
  { _id := "5c9f3a", name := "Gateway", ip := "10.0.0.1"
  , mac := "aa:bb:cc:dd:ee:ff", displayable_version := none
  , state := n, type := "ugw", disabled := none, port_table := [] }

/-- Unifi.login (lines 65-81), as a function of the HTTP status code the
controller answered with.  200 succeeds; 400 and every other status raise
RuntimeError (the same exception class), with different messages.  (For a
non-400 failure the source formats the whole Response object into the
message; only the status code in it varies, so the message is modelled as a
function of the code.) -/
def login (statusCode : Nat) : Except PyError Unit :=
  if statusCode = 200 then .ok ()
  else if statusCode = 400 then
    .error (.runtimeError "Login failed with provided credentials")
  else
    .error (.runtimeError ("Login failed with status: " ++ toString statusCode))

/-- Which handler of the main loop ran: the
`except requests.exceptions.ConnectionError` clause or the bare `except`
clause (src/monitor/unifi-monitor.py lines 196-214). -/
inductive Channel where
  | connection
  | generic
  deriving DecidableEq

/-- What one run of an error handler does: whether `notifier.sendMessage`
was called, which handler ran, and how long the handler sleeps. -/
structure StepOutput where
  notified : Bool
  channel : Channel
  sleepSeconds : Nat
  deriving DecidableEq

/-- The monitor's mutable loop state: the `active` flag and the
consecutive-error counter `error_count` (lines 166-167). -/
structure MonState where
  active : Bool
  errorCount : Nat
  deriving DecidableEq

/-- How the body of the outer `try` ended.  `completed` is normal
completion (which would run the `else: error_count = 0` clause);
`runInner_never_completes` below proves the inner `while True` cannot
produce it. -/
inductive Outcome where
  | completed
  | interrupted
  | raised (e : PyError)
  deriving DecidableEq

/-- One iteration of the inner polling loop (lines 178-188): it either
completes (poll + sleep), raises an exception, or is interrupted. -/
inductive CycleResult where
  | ok
  | raise (e : PyError)
  | interrupt
  deriving DecidableEq

/-- The inner `while True` loop (lines 178-188): successful cycles keep it
going; the first exception or interrupt leaves the `try`.  It has no
`break`, so a finite prefix of cycles either ends in an exception/interrupt
or the loop is still running (`none`). -/
def runInner : List CycleResult → Option Outcome
  | [] => none
  | .ok :: rest => runInner rest
  | .raise e :: _ => some (.raised e)
  | .interrupt :: _ => some (.interrupted)

/-- The outer `try/except/else` of the main loop (lines 169-217), given how
the `try` body ended.  `completed` models the `else` clause resetting
`error_count` to 0; `interrupted` models the KeyboardInterrupt handler;
a raised ConnectionError runs the first handler, any other exception the
bare `except`, both incrementing `error_count`, notifying only when the
incremented counter exceeds 1, and sleeping 120 seconds. -/
def outerStep (s : MonState) (t : Outcome) : MonState × Option StepOutput :=
  match t with
  | .completed => ({ s with errorCount := 0 }, none)
  | .interrupted => ({ s with active := false }, none)
  | .raised .connectionError =>
    ({ s with errorCount := s.errorCount + 1 }
    , some { notified := decide (s.errorCount + 1 > 1)
           , channel := .connection, sleepSeconds := 120 })
  | .raised _ =>
    ({ s with errorCount := s.errorCount + 1 }
    , some { notified := decide (s.errorCount + 1 > 1)
           , channel := .generic, sleepSeconds := 120 })

/-- What one iteration of the outer `while active` does before the inner
loop is reached: either `Unifi(...)` / `unifi.login()` raises, or the inner
loop runs the given cycles. -/
inductive OuterEvent where
  | loginFail (e : PyError)
  | run (cycles : List CycleResult)
  deriving DecidableEq

/-- The outcome of one outer iteration: a login failure is an exception
raised inside the `try` before the inner loop. -/
def outcomeOf : OuterEvent → Option Outcome
  | .loginFail e => some (.raised e)
  | .run cs => runInner cs

/-- The outer `while active` loop (lines 169-217) over a finite schedule of
iterations.  It stops consuming events once `active` is false; an iteration
whose inner loop is still running (`outcomeOf = none`) produces no further
handler steps.  The second component collects the handler outputs in
order. -/
def runLoop (s : MonState) : List OuterEvent → MonState × List StepOutput
  | [] => (s, [])
  | ev :: rest =>
    if s.active then
      match outcomeOf ev with
      | none => (s, [])
      | some t =>
        let p := outerStep s t
        let r := runLoop p.1 rest
        (r.1, (match p.2 with | some o => o :: r.2 | none => r.2))
    else (s, [])

/-- A VPN connection as monitor_vpn_connections handles it: the dict
`{'if': iface, 'addr': addr}`, i.e. an (interface, address) pair; Python
dict equality is structural, so the pair carries the whole identity. -/
abbrev Vpn := String × String

/-- A notification sent by the VPN comparator. -/
inductive VpnEvent where
  | opened (v : Vpn)
  | closed (v : Vpn)
  deriving DecidableEq

/-- One `for` loop of monitor_vpn_connections (lines 37-50): scan `l`, and
for every element not in `other` (Python list membership) call
`notifier.sendMessage`.  `sendOk` says whether the notifier delivers or
raises; a raise aborts the whole comparator, losing the remaining scan.
Returns the events successfully sent, in order, and the error if any. -/
def vpn_scan (sendOk : Bool) (other : List Vpn) (mk : Vpn → VpnEvent) :
    List Vpn → List VpnEvent × Option PyError
  | [] => ([], none)
  | v :: rest =>
    if v ∈ other then vpn_scan sendOk other mk rest
    else if sendOk then
      let r := vpn_scan sendOk other mk rest
      (mk v :: r.1, r.2)
    else ([], some .notifierError)

/-- monitor_vpn_connections (lines 30-53) given the stored previous list
and the freshly fetched current list: the new-connections loop runs first,
then the closed-connections loop. -/
def monitor_vpn_connections (sendOk : Bool) (prev curr : List Vpn) :
    List VpnEvent × Option PyError :=
  let r1 := vpn_scan sendOk prev VpnEvent.opened curr
  match r1.2 with
  | some e => (r1.1, some e)
  | none =>
    let r2 := vpn_scan sendOk curr VpnEvent.closed prev
    (r1.1 ++ r2.1, r2.2)

/-- The value of `monitor_vpn_connections.previous_vpn_connections` after a
call: the assignment to it is the last statement of the function (line 53),
so it is reached exactly when nothing raised. -/
def vpn_stored_after (sendOk : Bool) (prev curr : List Vpn) : List Vpn :=
  match (monitor_vpn_connections sendOk prev curr).2 with
  | none => curr
  | some _ => prev

/-- The list difference the two loops of monitor_vpn_connections compute
when every send succeeds: one entry per occurrence in `l` of a pair that is
not an element of `other`. -/
def vpn_diff (other l : List Vpn) : List Vpn :=
  l.filter (fun v => !decide (v ∈ other))

/-- The hard-coded ignore_list of src/monitor/unifi-monitor.py line 26:
`{'Switch-Bureau': [2]}`, a dict from device name to port indices. -/
def ignore_list : List (String × List Nat) := [("Switch-Bureau", [2])]

/-- The test on line 87: `device['name'] in ignore_list and port['index']
in ignore_list[device['name']]`. -/
def inIgnoreList (devName : String) (idx : Nat) : Bool :=
  match ignore_list.find? (fun p => p.1 == devName) with
  | some p => decide (idx ∈ p.2)
  | none => false

/-- One entry of the `notification_blocks` list monitor_ports builds for a
device (line 92): the message names the device, port index, port name and
the two speeds. -/
structure Block where
  dev : String
  idx : Nat
  portName : String
  oldSpeed : LinkSpeed
  newSpeed : LinkSpeed
  deriving DecidableEq

/-- An observable action of monitor_ports: the inconsistency notification
sent inline for a port with no previous record (lines 78-82), the
debug-level log of a suppressed speed change (line 88), or the batched
notification sent after a device's ports were compared (lines 95-106). -/
inductive PortAction where
  | inconsistencyNotify (dev : String) (idx : Nat)
  | debugIgnored (dev : String) (idx : Nat) (oldSpeed newSpeed : LinkSpeed)
  | batchNotify (dev : String) (blocks : List Block)
  deriving DecidableEq

/-- The port-comparison loop of monitor_ports (lines 74-93) for one device:
walk the current ports; a port with no same-index previous port sends an
inconsistency notification inline (which can raise); otherwise
`port['speed'] != previous_port['speed']` is evaluated, raising KeyError
(current side first) when a compared dict has no `'speed'` key; a genuine
change is suppressed into a debug log when (device, index) is ignored and
otherwise appended to the notification blocks.  Returns the actions that
happened, the blocks accumulated so far, and the error if one raised. -/
def port_loop (sendOk : Bool) (devName : String) (prevPorts : List PortInfo) :
    List PortInfo → List PortAction × List Block × Option PyError
  | [] => ([], [], none)
  | port :: rest =>
    match prevPorts.find? (fun p => p.index == port.index) with
    | none =>
      if sendOk then
        let r := port_loop sendOk devName prevPorts rest
        (.inconsistencyNotify devName port.index :: r.1, r.2.1, r.2.2)
      else ([], [], some .notifierError)
    | some pport =>
      match port.speed with
      | none => ([], [], some .keyError)
      | some ps =>
        match pport.speed with
        | none => ([], [], some .keyError)
        | some pps =>
          if ps = pps then port_loop sendOk devName prevPorts rest
          else if inIgnoreList devName port.index then
            let r := port_loop sendOk devName prevPorts rest
            (.debugIgnored devName port.index pps ps :: r.1, r.2.1, r.2.2)
          else
            let r := port_loop sendOk devName prevPorts rest
            (r.1, ⟨devName, port.index, port.name, pps, ps⟩ :: r.2.1, r.2.2)

/-- The body of monitor_ports for one current device (lines 64-106): a
device absent from the previous snapshot is skipped; otherwise its ports
are compared and, when blocks were collected, one batched notification is
sent (which can raise). -/
def monitor_device (sendOk : Bool) (prevDevices : List DeviceInfo)
    (device : DeviceInfo) : List PortAction × Option PyError :=
  match prevDevices.find? (fun d => d.name == device.name) with
  | none => ([], none)
  | some pdev =>
    let r := port_loop sendOk device.name pdev.ports device.ports
    match r.2.2 with
    | some e => (r.1, some e)
    | none =>
      if r.2.1.isEmpty then (r.1, none)
      else if sendOk then (r.1 ++ [.batchNotify device.name r.2.1], none)
      else (r.1, some .notifierError)

/-- monitor_ports (lines 58-108) given the stored previous device list and
the freshly fetched current one: devices are processed in order, the first
exception aborting the rest of the function. -/
def monitor_ports (sendOk : Bool) (prevDevices : List DeviceInfo) :
    List DeviceInfo → List PortAction × Option PyError
  | [] => ([], none)
  | d :: rest =>
    let r := monitor_device sendOk prevDevices d
    match r.2 with
    | some e => (r.1, some e)
    | none =>
      let r2 := monitor_ports sendOk prevDevices rest
      (r.1 ++ r2.1, r2.2)

/-- The value of `monitor_ports.previous_devices` after a call: the
assignment to it is the last statement of the function (line 108), so it is
reached exactly when nothing raised. -/
def ports_stored_after (sendOk : Bool) (prev curr : List DeviceInfo) :
    List DeviceInfo :=
  match (monitor_ports sendOk prev curr).2 with
  | none => curr
  | some _ => prev

/-- Python str.lower() for the ASCII strings MAC addresses are made of. -/
def pyLower (s : String) : String := String.mk (s.data.map Char.toLower)

/-- The JSON payload of a `cmd/stamgr` or `cmd/devmgr` command. -/
structure MgrCommand where
  cmd : String
  mac : String
  deriving DecidableEq

/-- Unifi.reconnect_client (lines 142-146): the payload posted. -/
def reconnect_client (mac : String) : MgrCommand :=
  { cmd := "kick-sta", mac := pyLower mac }

/-- Unifi.force_provision (lines 239-243): the payload posted. -/
def force_provision (mac : String) : MgrCommand :=
  { cmd := "force-provision", mac := pyLower mac }

/-- Unifi.get_device_status (lines 160-163): the request path, an f-string
the caller-supplied MAC is embedded in unchanged. -/
def get_device_status_path (site mac : String) : String :=
  "api/s/" ++ site ++ "/stat/device/" ++ mac

/-- A device with the given name and ports and fixed other fields, for
concrete comparator inputs. -/
def mkDevice (nm : String) (ps : List PortInfo) : DeviceInfo :=
  { id := "6a01", name := nm, ip := "10.0.0.2", mac := "11:22:33:44:55:66"
  , version := "4.0.66", state := .connected, type := .switch
  , disabled := false, ports := ps }

/-- The inner `while True` has no `break`: no finite schedule of cycles
makes the outer `try` body complete normally, so the `else` clause that
resets `error_count` to 0 can never run. -/
theorem runInner_never_completes :
    ∀ cs : List CycleResult, runInner cs ≠ some Outcome.completed := by
  intro cs
  induction cs with
  | nil => simp [runInner]
  | cons c rest ih => cases c <;> simp [runInner, ih]

/-- Claim C1 (code_bug): decoding a device record whose state code is not a
key of `_device_state_values` raises KeyError out of `_extract_device_infos`
(the handler catches ValueError, which a dict subscript never raises), so
the decode does not degrade to the Other state; the five recognized codes
decode deterministically to their named states. -/
theorem device_state_decode_bug :
    extract_device_infos (rawDeviceWithState 2) = Except.error PyError.keyError
  ∧ (extract_device_infos (rawDeviceWithState 0)).map DeviceInfo.state
      = Except.ok DeviceState.disconnected
  ∧ (extract_device_infos (rawDeviceWithState 1)).map DeviceInfo.state
      = Except.ok DeviceState.connected
  ∧ (extract_device_infos (rawDeviceWithState 4)).map DeviceInfo.state
      = Except.ok DeviceState.upgrading
  ∧ (extract_device_infos (rawDeviceWithState 5)).map DeviceInfo.state
      = Except.ok DeviceState.provisioning
  ∧ (extract_device_infos (rawDeviceWithState 6)).map DeviceInfo.state
      = Except.ok DeviceState.heartbeatMissed :=
  ⟨rfl, rfl, rfl, rfl, rfl, rfl⟩

/-- Claim C2 (counterexample): login on HTTP 400 raises RuntimeError — the
same exception class every other non-200 status raises — and the monitor
loop is still active after handling it (its bare `except` clause increments
the counter, does not notify on a first error, sleeps 120 s and loops back
into login): the process does not stop, it retries. -/
theorem login_400_loop_retries :
    login 400 = Except.error (PyError.runtimeError "Login failed with provided credentials")
  ∧ login 500 = Except.error (PyError.runtimeError "Login failed with status: 500")
  ∧ runLoop { active := true, errorCount := 0 }
      [OuterEvent.loginFail (PyError.runtimeError "Login failed with provided credentials")]
      = ({ active := true, errorCount := 1 }
        , [{ notified := false, channel := Channel.generic, sleepSeconds := 120 }])
  ∧ ({ active := true, errorCount := 1 } : MonState).active = true :=
  ⟨rfl, rfl, rfl, rfl⟩

/-- Claim C2 (amended): HTTP 400 makes login raise
RuntimeError('Login failed with provided credentials') immediately — the
same exception class as any other non-200 status, distinguished only by
message — and the failure is not fatal: the loop's generic handler leaves
`active` unchanged, increments the error counter, notifies only when the
incremented counter exceeds 1, and sleeps 120 s before the loop re-enters
login. -/
theorem login_400_not_fatal (s : MonState) :
    login 400 = Except.error (PyError.runtimeError "Login failed with provided credentials")
  ∧ outerStep s (Outcome.raised (PyError.runtimeError "Login failed with provided credentials"))
      = ({ s with errorCount := s.errorCount + 1 }
        , some { notified := decide (s.errorCount + 1 > 1)
               , channel := Channel.generic, sleepSeconds := 120 })
  ∧ ({ s with errorCount := s.errorCount + 1 } : MonState).active = s.active :=
  ⟨rfl, rfl, rfl⟩

/-- Claim C3 (code_bug): after a ConnectionError (counter 1) followed by an
outer iteration whose poll cycle completes successfully, the error counter
is still 1, not 0 — the `else: error_count = 0` clause hangs off a `try`
whose body is the infinite inner loop and never runs
(`runInner_never_completes`). -/
theorem error_count_not_reset :
    runLoop { active := true, errorCount := 0 }
      [OuterEvent.run [CycleResult.raise PyError.connectionError]
      , OuterEvent.run [CycleResult.ok]]
      = ({ active := true, errorCount := 1 }
        , [{ notified := false, channel := Channel.connection, sleepSeconds := 120 }]) :=
  rfl

/-- Claim C4 (code_bug): a ConnectionError, then a successful poll cycle,
then another ConnectionError: the second failure opens a fresh run of
consecutive failures, yet the loop notifies on it (counter 1 → 2, never
reset by the intervening success); both failures do sleep 120 s in the
ConnectionError handler. -/
theorem first_failure_of_second_run_notifies :
    runLoop { active := true, errorCount := 0 }
      [OuterEvent.run [CycleResult.raise PyError.connectionError]
      , OuterEvent.run [CycleResult.ok, CycleResult.raise PyError.connectionError]]
      = ({ active := true, errorCount := 2 }
        , [{ notified := false, channel := Channel.connection, sleepSeconds := 120 }
          , { notified := true, channel := Channel.connection, sleepSeconds := 120 }]) :=
  rfl

/-- With a working notifier a scan loop of the VPN comparator sends one
event per occurrence of a pair not in the other list, and never raises. -/
theorem vpn_scan_ok (other : List Vpn) (mk : Vpn → VpnEvent) :
    ∀ l, vpn_scan true other mk l = ((vpn_diff other l).map mk, none) := by
  intro l
  induction l with
  | nil => rfl
  | cons v rest ih =>
    by_cases hv : v ∈ other
    · have h1 : vpn_scan true other mk (v :: rest) = vpn_scan true other mk rest := by
        simp [vpn_scan, hv]
      rw [h1, ih]
      simp [vpn_diff, List.filter_cons, hv]
    · have h1 : vpn_scan true other mk (v :: rest)
          = (mk v :: (vpn_scan true other mk rest).1, (vpn_scan true other mk rest).2) := by
        simp [vpn_scan, hv]
      rw [h1, ih]
      simp [vpn_diff, List.filter_cons, hv]

/-- A scan loop over a list all of whose elements are in the other list
sends nothing, so it cannot raise, whatever the notifier does. -/
theorem vpn_scan_subset (sendOk : Bool) (other : List Vpn) (mk : Vpn → VpnEvent) :
    ∀ l, (∀ v ∈ l, v ∈ other) → vpn_scan sendOk other mk l = ([], none) := by
  intro l
  induction l with
  | nil => intro _; rfl
  | cons v rest ih =>
    intro h
    have hv : v ∈ other := h v (List.mem_cons_self v rest)
    have hrest := ih (fun w hw => h w (List.mem_cons_of_mem v hw))
    simp [vpn_scan, hv, hrest]

/-- Claim C7: when the previous and current snapshots hold the same set of
(interface, address) pairs — whatever the order or duplication in either
list — the VPN comparator emits no opened and no closed events (and cannot
raise, since no send is attempted). -/
theorem vpn_same_set_no_events (sendOk : Bool) (prev curr : List Vpn)
    (h : ∀ v : Vpn, v ∈ prev ↔ v ∈ curr) :
    monitor_vpn_connections sendOk prev curr = ([], none) := by
  have h1 := vpn_scan_subset sendOk prev VpnEvent.opened curr
    (fun v hv => (h v).mpr hv)
  have h2 := vpn_scan_subset sendOk curr VpnEvent.closed prev
    (fun v hv => (h v).mp hv)
  simp [monitor_vpn_connections, h1, h2]

/-- Claim C7 witness: two snapshots of the same two pairs listed in
opposite orders produce no events. -/
theorem vpn_same_set_no_events_witness :
    (∀ v : Vpn, v ∈ [(("l2tp0", "10.0.0.5") : Vpn), ("l2tp1", "10.0.0.6")]
       ↔ v ∈ [(("l2tp1", "10.0.0.6") : Vpn), ("l2tp0", "10.0.0.5")])
  ∧ monitor_vpn_connections true
      [("l2tp0", "10.0.0.5"), ("l2tp1", "10.0.0.6")]
      [("l2tp1", "10.0.0.6"), ("l2tp0", "10.0.0.5")] = ([], none) := by
  have hset : ∀ v : Vpn, v ∈ [(("l2tp0", "10.0.0.5") : Vpn), ("l2tp1", "10.0.0.6")]
      ↔ v ∈ [(("l2tp1", "10.0.0.6") : Vpn), ("l2tp0", "10.0.0.5")] := by
    intro v
    simp only [List.mem_cons, List.not_mem_nil, or_false]
    exact or_comm
  exact ⟨hset, vpn_same_set_no_events true _ _ hset⟩

/-- Claim C8 (counterexample): a pair occurring twice in the current
snapshot and absent from the previous one yields two opened events — one
per occurrence — though it is one distinct pair: duplicates do not
collapse. -/
theorem vpn_duplicate_pair_double_event :
    (monitor_vpn_connections true []
        [("l2tp0", "10.0.0.9"), ("l2tp0", "10.0.0.9")]).1
      = [VpnEvent.opened ("l2tp0", "10.0.0.9"), VpnEvent.opened ("l2tp0", "10.0.0.9")]
  ∧ (vpn_diff [] [("l2tp0", "10.0.0.9"), ("l2tp0", "10.0.0.9")]).dedup.length = 1 :=
  ⟨rfl, by decide⟩

/-- Claim C8 (amended): the VPN comparator computes a per-occurrence list
difference, not a set difference: with a working notifier it emits exactly
one opened event per occurrence in current of a pair not in previous,
followed by one closed event per occurrence in previous of a pair not in
current, duplicates producing one event each. -/
theorem vpn_events_per_occurrence (prev curr : List Vpn) :
    monitor_vpn_connections true prev curr
      = ((vpn_diff prev curr).map VpnEvent.opened
          ++ (vpn_diff curr prev).map VpnEvent.closed, none) := by
  simp [monitor_vpn_connections, vpn_scan_ok]

/-- Claim C5 (counterexample): with a notifier whose dispatch raises, one
new VPN connection makes the comparator raise before its final statement,
and the stored previous snapshot stays the old empty list instead of being
replaced by the current snapshot. -/
theorem vpn_snapshot_not_replaced_on_error :
    (monitor_vpn_connections false [] [("l2tp0", "10.0.0.9")]).2
      = some PyError.notifierError
  ∧ vpn_stored_after false [] [("l2tp0", "10.0.0.9")] = []
  ∧ decide (vpn_stored_after false [] [("l2tp0", "10.0.0.9")]
      = [(("l2tp0", "10.0.0.9") : Vpn)]) = false :=
  ⟨rfl, rfl, rfl⟩

/-- Claim C5 (amended): each comparator replaces its stored snapshot with
the current one exactly when its body completes without raising — the
assignment is the last statement of each function, so an error in the
comparison or a dispatch skips it and the next call diffs against the old
snapshot; with a working notifier the VPN comparator always completes and
replaces. -/
theorem stored_snapshot_updated_iff_no_error (sendOk : Bool)
    (prev curr : List Vpn) (pd cd : List DeviceInfo) :
    ((monitor_vpn_connections true prev curr).2 = none)
  ∧ (vpn_stored_after true prev curr = curr)
  ∧ ((monitor_vpn_connections sendOk prev curr).2 = none
      → vpn_stored_after sendOk prev curr = curr)
  ∧ ((monitor_vpn_connections sendOk prev curr).2.isSome = true
      → vpn_stored_after sendOk prev curr = prev)
  ∧ ((monitor_ports sendOk pd cd).2 = none
      → ports_stored_after sendOk pd cd = cd)
  ∧ ((monitor_ports sendOk pd cd).2.isSome = true
      → ports_stored_after sendOk pd cd = pd) := by
  refine ⟨?_, ?_, ?_, ?_, ?_, ?_⟩
  · simp [monitor_vpn_connections, vpn_scan_ok]
  · simp [vpn_stored_after, monitor_vpn_connections, vpn_scan_ok]
  · intro h; simp [vpn_stored_after, h]
  · intro h
    cases hm : (monitor_vpn_connections sendOk prev curr).2 with
    | none => rw [hm] at h; simp at h
    | some e => simp [vpn_stored_after, hm]
  · intro h; simp [ports_stored_after, h]
  · intro h
    cases hm : (monitor_ports sendOk pd cd).2 with
    | none => rw [hm] at h; simp at h
    | some e => simp [ports_stored_after, hm]

/-- Claim C5 witness: with a failing notifier and one new connection the
VPN comparator errors and keeps its old stored snapshot; an empty ports
comparison completes and stores the (empty) current list. -/
theorem stored_snapshot_updated_iff_no_error_witness :
    vpn_stored_after false [] [(("l2tp0", "10.0.0.9") : Vpn)] = []
  ∧ ports_stored_after false [] [] = [] := by
  have h := stored_snapshot_updated_iff_no_error false []
    [(("l2tp0", "10.0.0.9") : Vpn)] [] []
  exact ⟨h.2.2.2.1 rfl, h.2.2.2.2.1 rfl⟩

/-- Every notification block the port loop accumulates concerns a
(device, port) pair the ignore test rejects: an ignored pair's speed change
takes the debug-log branch and never reaches the block list. -/
theorem port_loop_blocks_not_ignored (sendOk : Bool) (devName : String)
    (prevPorts : List PortInfo) :
    ∀ ports b, b ∈ (port_loop sendOk devName prevPorts ports).2.1 →
      inIgnoreList b.dev b.idx = false := by
  intro ports
  induction ports with
  | nil => intro b hb; simp [port_loop] at hb
  | cons port rest ih =>
    intro b hb
    simp only [port_loop] at hb
    split at hb
    · split at hb
      · exact ih b hb
      · simp at hb
    · split at hb
      · simp at hb
      · split at hb
        · simp at hb
        · split at hb
          · exact ih b hb
          · split at hb
            · exact ih b hb
            · rename_i hig
              rcases List.mem_cons.mp hb with hhd | htl
              · subst hhd
                exact Bool.not_eq_true _ ▸ (by simpa using hig)
              · exact ih b htl

/-- The port loop itself sends no batched notification: its actions are
inline inconsistency notifications and debug logs only. -/
theorem port_loop_no_batch (sendOk : Bool) (devName : String)
    (prevPorts : List PortInfo) :
    ∀ ports dev blocks,
      PortAction.batchNotify dev blocks ∉ (port_loop sendOk devName prevPorts ports).1 := by
  intro ports
  induction ports with
  | nil => intro dev blocks h; simp [port_loop] at h
  | cons port rest ih =>
    intro dev blocks h
    simp only [port_loop] at h
    split at h
    · split at h
      · rcases List.mem_cons.mp h with hhd | htl
        · exact PortAction.noConfusion hhd
        · exact ih dev blocks htl
      · simp at h
    · split at h
      · simp at h
      · split at h
        · simp at h
        · split at h
          · exact ih dev blocks h
          · split at h
            · rcases List.mem_cons.mp h with hhd | htl
              · exact PortAction.noConfusion hhd
              · exact ih dev blocks htl
            · exact ih dev blocks h

/-- A batched notification emitted for one device only carries blocks for
pairs the ignore test rejects. -/
theorem monitor_device_batch_blocks (sendOk : Bool)
    (prevDevices : List DeviceInfo) (device : DeviceInfo) :
    ∀ dev blocks b,
      PortAction.batchNotify dev blocks ∈ (monitor_device sendOk prevDevices device).1 →
      b ∈ blocks → inIgnoreList b.dev b.idx = false := by
  intro dev blocks b hmem hb
  simp only [monitor_device] at hmem
  split at hmem
  · simp at hmem
  · split at hmem
    · exact absurd hmem (port_loop_no_batch sendOk device.name _ _ dev blocks)
    · split at hmem
      · exact absurd hmem (port_loop_no_batch sendOk device.name _ _ dev blocks)
      · split at hmem
        · rcases List.mem_append.mp hmem with hl | hr
          · exact absurd hl (port_loop_no_batch sendOk device.name _ _ dev blocks)
          · have heq := List.mem_singleton.mp hr
            injection heq with h1 h2
            subst h2
            exact port_loop_blocks_not_ignored sendOk device.name _ _ b hb
        · exact absurd hmem (port_loop_no_batch sendOk device.name _ _ dev blocks)

/-- Claim C6: for every pair of device snapshots, a (device name, port
index) pair of the static ignore policy never appears in any batched
speed-change notification the port comparator emits — and on the spec's own
example (Switch-Bureau port 2 going from 1Gbit to Down while ignored) the
comparator's only action is the debug-level suppressed-change log, with no
notification and no error. -/
theorem ignored_ports_never_notified :
    (∀ (sendOk : Bool) (prev curr : List DeviceInfo) (dev : String)
        (blocks : List Block) (b : Block),
        PortAction.batchNotify dev blocks ∈ (monitor_ports sendOk prev curr).1 →
        b ∈ blocks → inIgnoreList b.dev b.idx = false)
  ∧ monitor_ports true
      [mkDevice "Switch-Bureau"
        [{ name := "Port 2", enable := true, index := 2, speed := some LinkSpeed.up1Gb }]]
      [mkDevice "Switch-Bureau"
        [{ name := "Port 2", enable := true, index := 2, speed := some LinkSpeed.down }]]
      = ([PortAction.debugIgnored "Switch-Bureau" 2 LinkSpeed.up1Gb LinkSpeed.down], none) := by
  constructor
  · intro sendOk prev curr dev blocks b hmem hb
    induction curr with
    | nil => simp [monitor_ports] at hmem
    | cons d rest ih =>
      simp only [monitor_ports] at hmem
      split at hmem
      · exact monitor_device_batch_blocks sendOk prev d dev blocks b hmem hb
      · rcases List.mem_append.mp hmem with hl | hr
        · exact monitor_device_batch_blocks sendOk prev d dev blocks b hl hb
        · exact ih hr
  · decide

/-- Claim C6 witness: a non-ignored device does get a batched speed-change
notification, and the universal statement applied to its block confirms the
pair is outside the ignore policy. -/
theorem ignored_ports_never_notified_witness :
    PortAction.batchNotify "Office-Switch"
        [{ dev := "Office-Switch", idx := 1, portName := "Port 1"
         , oldSpeed := LinkSpeed.up1Gb, newSpeed := LinkSpeed.down }]
      ∈ (monitor_ports true
          [mkDevice "Office-Switch"
            [{ name := "Port 1", enable := true, index := 1, speed := some LinkSpeed.up1Gb }]]
          [mkDevice "Office-Switch"
            [{ name := "Port 1", enable := true, index := 1, speed := some LinkSpeed.down }]]).1
  ∧ inIgnoreList "Office-Switch" 1 = false :=
  ⟨by decide, ignored_ports_never_notified.1 true
    [mkDevice "Office-Switch"
      [{ name := "Port 1", enable := true, index := 1, speed := some LinkSpeed.up1Gb }]]
    [mkDevice "Office-Switch"
      [{ name := "Port 1", enable := true, index := 1, speed := some LinkSpeed.down }]]
    "Office-Switch"
    [{ dev := "Office-Switch", idx := 1, portName := "Port 1"
     , oldSpeed := LinkSpeed.up1Gb, newSpeed := LinkSpeed.down }]
    { dev := "Office-Switch", idx := 1, portName := "Port 1"
    , oldSpeed := LinkSpeed.up1Gb, newSpeed := LinkSpeed.down }
    (by decide) (by decide)⟩

/-- Claim C9 (counterexample): get_device_status embeds the caller's MAC in
the request path unchanged: an upper-case MAC yields an upper-case path,
not the lower-cased one the spec promises. -/
theorem get_device_status_mac_not_lowered :
    get_device_status_path "default" "AA:BB:CC:DD:EE:FF"
      = "api/s/default/stat/device/AA:BB:CC:DD:EE:FF"
  ∧ pyLower "AA:BB:CC:DD:EE:FF" = "aa:bb:cc:dd:ee:ff"
  ∧ decide ((("api/s/default/stat/device/AA:BB:CC:DD:EE:FF") : String)
      = "api/s/default/stat/device/" ++ pyLower "AA:BB:CC:DD:EE:FF") = false :=
  ⟨rfl, by decide, by decide⟩

/-- Claim C9 (amended): reconnect_client and force_provision send the MAC
lower-cased whatever the caller's case; get_device_status embeds the
caller-supplied MAC in the request path unchanged. -/
theorem mac_lowercasing_by_endpoint (site mac : String) :
    (reconnect_client mac).mac = pyLower mac
  ∧ (reconnect_client mac).cmd = "kick-sta"
  ∧ (force_provision mac).mac = pyLower mac
  ∧ (force_provision mac).cmd = "force-provision"
  ∧ get_device_status_path site mac = "api/s/" ++ site ++ "/stat/device/" ++ mac :=
  ⟨rfl, rfl, rfl, rfl, rfl⟩

/-- Claim C10: a port that is up with a raw speed other than 10/100/1000
decodes to a port dict with no 'speed' key; comparing such a port against a
previous record raises KeyError, which aborts the whole monitor_ports call
(leaving the stored snapshot stale) and lands in the loop's bare `except`
handler: generic channel, 120-second sleep. -/
theorem missing_speed_key_aborts_cycle (pd : RawPort) (p pp : PortInfo)
    (devName : String) (sendOk : Bool) (s : MonState)
    (h1 : pd.up = some true) (h2 : pd.speed ≠ 10) (h3 : pd.speed ≠ 100)
    (h4 : pd.speed ≠ 1000) (h5 : pp.index = p.index) (h6 : p.speed = none) :
    (extract_port_infos pd).speed = none
  ∧ port_loop sendOk devName [pp] [p] = ([], [], some PyError.keyError)
  ∧ (monitor_ports sendOk [mkDevice devName [pp]] [mkDevice devName [p]]).2
      = some PyError.keyError
  ∧ ports_stored_after sendOk [mkDevice devName [pp]] [mkDevice devName [p]]
      = [mkDevice devName [pp]]
  ∧ outerStep s (Outcome.raised PyError.keyError)
      = ({ s with errorCount := s.errorCount + 1 }
        , some { notified := decide (s.errorCount + 1 > 1)
               , channel := Channel.generic, sleepSeconds := 120 }) := by
  have hc1 : (extract_port_infos pd).speed = none := by
    simp [extract_port_infos, h1, h2, h3, h4]
  have hc2 : port_loop sendOk devName [pp] [p] = ([], [], some PyError.keyError) := by
    simp [port_loop, List.find?, h5, h6]
  have hc3 : (monitor_ports sendOk [mkDevice devName [pp]] [mkDevice devName [p]]).2
      = some PyError.keyError := by
    simp [monitor_ports, monitor_device, mkDevice, List.find?, hc2]
  have hc4 : ports_stored_after sendOk [mkDevice devName [pp]] [mkDevice devName [p]]
      = [mkDevice devName [pp]] := by
    simp [ports_stored_after, hc3]
  exact ⟨hc1, hc2, hc3, hc4, rfl⟩

/-- Claim C10 witness: a concrete up port with raw speed 2500 decodes with
no speed; comparing it against a previous 1Gbit record raises KeyError,
monitor_ports aborts keeping the old snapshot, and the generic handler
backs off 120 seconds without notifying a first error. -/
theorem missing_speed_key_aborts_cycle_witness :
    (extract_port_infos
      { name := "Port 5", enable := true, port_idx := 5, up := some true, speed := 2500 }).speed
      = none
  ∧ port_loop true "Office"
      [{ name := "Port 5", enable := true, index := 5, speed := some LinkSpeed.up1Gb }]
      [{ name := "Port 5", enable := true, index := 5, speed := none }]
      = ([], [], some PyError.keyError)
  ∧ (monitor_ports true
      [mkDevice "Office" [{ name := "Port 5", enable := true, index := 5, speed := some LinkSpeed.up1Gb }]]
      [mkDevice "Office" [{ name := "Port 5", enable := true, index := 5, speed := none }]]).2
      = some PyError.keyError
  ∧ ports_stored_after true
      [mkDevice "Office" [{ name := "Port 5", enable := true, index := 5, speed := some LinkSpeed.up1Gb }]]
      [mkDevice "Office" [{ name := "Port 5", enable := true, index := 5, speed := none }]]
      = [mkDevice "Office" [{ name := "Port 5", enable := true, index := 5, speed := some LinkSpeed.up1Gb }]]
  ∧ outerStep { active := true, errorCount := 0 } (Outcome.raised PyError.keyError)
      = ({ active := true, errorCount := 1 }
        , some { notified := false, channel := Channel.generic, sleepSeconds := 120 }) :=
  missing_speed_key_aborts_cycle
    { name := "Port 5", enable := true, port_idx := 5, up := some true, speed := 2500 }
    { name := "Port 5", enable := true, index := 5, speed := none }
    { name := "Port 5", enable := true, index := 5, speed := some LinkSpeed.up1Gb }
    "Office" true { active := true, errorCount := 0 }
    rfl (by decide) (by decide) (by decide) rfl rfl
